import Mathlib

/-!
Verification of the column-wise normalization library
(`boston-housing/normalization.js`).

The library operates on 2-D tensors (rows = samples, columns = features)
through a tensor-math library providing per-column reductions (`mean(0)`,
`min(0)`, `max(0)`, `median(0)`, `quartile(0)`) and broadcasting elementwise
arithmetic (`sub`, `div`, `square`, `sqrt`, `log`, `slice`).

We model a matrix of shape `(m+1) × (n+1)` — the spec only constrains the
functions for `numSamples ≥ 1` and `numFeatures ≥ 1` — with exact rational
entries (every finite floating-point value is a rational); the operations
that leave the rationals (`sqrt`, `log`) land in `ℝ`.
-/

namespace Normalization

/-- A 2-D tensor of shape `(m+1) × (n+1)`: row index `i` (sample), column
index `j` (feature). -/
abbrev Mat (m n : ℕ) (α : Type) := Fin (m + 1) → Fin (n + 1) → α

namespace TF

variable {α : Type} [LinearOrderedField α] {m n : ℕ}

/-- `t.mean(0)`: per-column mean across the rows. -/
def meanCols (A : Mat m n α) : Fin (n + 1) → α :=
  fun j => (∑ i, A i j) / ((m + 1 : ℕ) : α)

/-- `t.sub(v)` for a 1-d tensor `v` of length `n+1`: `v` is broadcast across
the rows and subtracted elementwise. -/
def subRows (A : Mat m n α) (v : Fin (n + 1) → α) : Mat m n α :=
  fun i j => A i j - v j

/-- `t.div(v)` for a 1-d tensor `v` of length `n+1`: `v` is broadcast across
the rows and divides elementwise. -/
def divRows (A : Mat m n α) (v : Fin (n + 1) → α) : Mat m n α :=
  fun i j => A i j / v j

/-- `t.square()`: elementwise square. -/
def squareT (A : Mat m n α) : Mat m n α :=
  fun i j => A i j * A i j

/-- `u.sub(v)` for two 1-d tensors of the same length: elementwise difference. -/
def subVec (u v : Fin (n + 1) → α) : Fin (n + 1) → α :=
  fun j => u j - v j

/-- `t.min(0)`: per-column minimum. -/
def minCols (A : Mat m n α) : Fin (n + 1) → α :=
  fun j => Finset.univ.inf' Finset.univ_nonempty (fun i => A i j)

/-- `t.max(0)`: per-column maximum. -/
def maxCols (A : Mat m n α) : Fin (n + 1) → α :=
  fun j => Finset.univ.sup' Finset.univ_nonempty (fun i => A i j)

/-- Column `j` of the matrix, as a list of its `m+1` entries in row order. -/
def colList (A : Mat m n α) (j : Fin (n + 1)) : List α :=
  List.ofFn (fun i => A i j)

/-- Median of a list: after sorting, the middle element of an odd-length
list, or the mean of the two middle elements of an even-length list. -/
def medianList (l : List α) : α :=
  let s := l.mergeSort (fun a b => decide (a ≤ b))
  if l.length % 2 = 1 then s.getD (l.length / 2) 0
  else (s.getD (l.length / 2 - 1) 0 + s.getD (l.length / 2) 0) / 2

/-- `t.median(0)`: per-column median. -/
def medianCols (A : Mat m n α) : Fin (n + 1) → α :=
  fun j => medianList (colList A j)

/-- Quartiles `[Q1, Q2, Q3]` of a list, by the inclusive (Tukey hinge)
convention: Q2 is the median, Q1 and Q3 are the medians of the lower and
upper halves of the sorted list, each half including the middle element
when the length is odd. -/
def quartilesList (l : List α) : Fin 3 → α :=
  let s := l.mergeSort (fun a b => decide (a ≤ b))
  ![medianList (s.take ((l.length + 1) / 2)),
    medianList s,
    medianList (s.drop (l.length / 2))]

/-- `t.quartile(0)`: a tensor of shape `[3, n+1]` whose rows are the
per-column quartiles `Q1, Q2, Q3`. -/
def quartileCols (A : Mat m n α) (k : Fin 3) : Fin (n + 1) → α :=
  fun j => quartilesList (colList A j) k

/-- `q.slice([k], [1])` on a `[3, n+1]` tensor: row `k` as a 1-d tensor. -/
def sliceRow (T : Fin 3 → Fin (n + 1) → α) (k : Fin 3) : Fin (n + 1) → α :=
  T k

/-- Entrywise embedding of a rational matrix into the reals (exact value
semantics of the floating-point entries). -/
def toReal (A : Mat m n ℚ) : Mat m n ℝ :=
  fun i j => (A i j : ℝ)

/-- `v.sqrt()` on a 1-d tensor of (rational) variances: elementwise square
root, valued in `ℝ`. -/
noncomputable def sqrtVec (v : Fin (n + 1) → ℚ) : Fin (n + 1) → ℝ :=
  fun j => Real.sqrt (v j)

/-- `t.log()`: elementwise natural logarithm. -/
noncomputable def logT (A : Mat m n ℝ) : Mat m n ℝ :=
  fun i j => Real.log (A i j)

/-- `t.div(c)` with a scalar (0-d tensor) `c`: `c` divides every element. -/
noncomputable def divScalar (A : Mat m n ℝ) (c : ℝ) : Mat m n ℝ :=
  fun i j => A i j / c

end TF

/-- The object returned by `determineMeanAndStddev`: its two properties are
named `dataMean` and `dataStd`. -/
structure MeanStd (n : ℕ) where
  dataMean : Fin (n + 1) → ℚ
  dataStd : Fin (n + 1) → ℝ

/--
```js
export function determineMeanAndStddev(data) {
  const dataMean = data.mean(0);
  const diffFromMean = data.sub(dataMean);
  const squaredDiffFromMean = diffFromMean.square();
  const variance = squaredDiffFromMean.mean(0);
  const dataStd = variance.sqrt();
  return { dataMean, dataStd };
}
```
-/
noncomputable def determineMeanAndStddev (data : Mat m n ℚ) : MeanStd n :=
  let dataMean := TF.meanCols data
  let diffFromMean := TF.subRows data dataMean
  let squaredDiffFromMean := TF.squareT diffFromMean
  let variance := TF.meanCols squaredDiffFromMean
  let dataStd := TF.sqrtVec variance
  { dataMean := dataMean, dataStd := dataStd }

/--
```js
export function normalizeTensor(data, dataMean, dataStd) {
  return data.sub(dataMean).div(dataStd);
}
```
-/
def normalizeTensor {α : Type} [LinearOrderedField α] (data : Mat m n α)
    (dataMean dataStd : Fin (n + 1) → α) : Mat m n α :=
  TF.divRows (TF.subRows data dataMean) dataStd

/-- JavaScript property access on the object `{ dataMean, dataStd }` returned
by `determineMeanAndStddev`: reading the property named `key` yields the
corresponding value for the object's two own properties `"dataMean"` and
`"dataStd"`, and `undefined` (here `none`) for any other name. The rational
`dataMean` is read back at its exact real value. -/
noncomputable def MeanStd.getProp (r : MeanStd n) (key : String) :
    Option (Fin (n + 1) → ℝ) :=
  if key = "dataMean" then some (fun j => (r.dataMean j : ℝ))
  else if key = "dataStd" then some r.dataStd
  else none

/--
```js
export function normalizeTensorWithZScore(data) {
  const { mean, std } = determineMeanAndStddev(data);
  return normalizeTensor(data, mean, std);
}
```
The destructuring reads the properties named `mean` and `std`, which the
returned object (whose properties are `dataMean` and `dataStd`) does not
have, so both bind `undefined`; `data.sub(undefined)` inside
`normalizeTensor` then throws in the tensor library (its binary ops require
tensor operands). A thrown error is modelled as `none`. -/
noncomputable def normalizeTensorWithZScore (data : Mat m n ℚ) :
    Option (Mat m n ℝ) :=
  let r := determineMeanAndStddev data
  match r.getProp "mean", r.getProp "std" with
  | some mean, some std => some (normalizeTensor (TF.toReal data) mean std)
  | _, _ => none

/--
```js
export function normalizeTensorWithMinMax(data) {
  const min = data.min(0);
  const max = data.max(0);
  return data.sub(min).div(max.sub(min));
}
```
-/
def normalizeTensorWithMinMax {α : Type} [LinearOrderedField α]
    (data : Mat m n α) : Mat m n α :=
  let mn := TF.minCols data
  let mx := TF.maxCols data
  TF.divRows (TF.subRows data mn) (TF.subVec mx mn)

/--
```js
export function normalizeTensorWithLogScaling(data) {
  return data.log().div(tf.log(10));
}
```
`tf.log(10)` is the library's scalar natural logarithm of 10. -/
noncomputable def normalizeTensorWithLogScaling (data : Mat m n ℚ) :
    Mat m n ℝ :=
  TF.divScalar (TF.logT (TF.toReal data)) (Real.log 10)

/--
```js
export function normalizeTensorWithRobustScaling(data) {
  const median = data.median(0);
  const quartiles = data.quartile(0);
  const min = quartiles.slice([0], [1]); // Lower quartile. Q1
  const max = quartiles.slice([2], [3]); // Upper quartile. Q3
  return data.sub(median).div(max.sub(min));
}
```
-/
def normalizeTensorWithRobustScaling {α : Type} [LinearOrderedField α]
    (data : Mat m n α) : Mat m n α :=
  let median := TF.medianCols data
  let quartiles := TF.quartileCols data
  let mn := TF.sliceRow quartiles 0
  let mx := TF.sliceRow quartiles 2
  TF.divRows (TF.subRows data median) (TF.subVec mx mn)

/-- The spec's running example matrix `[[1,2],[3,4],[5,6]]`. -/
def ex3 : Mat 2 1 ℚ := ![![1, 2], ![3, 4], ![5, 6]]

/-- The single-column matrix `[[1],[3],[5]]`. -/
def ex135 : Mat 2 0 ℚ := ![![1], ![3], ![5]]

/-- The single-column matrix `[[1],[2],[3],[4],[5]]`. -/
def ex5 : Mat 4 0 ℚ := ![![1], ![2], ![3], ![4], ![5]]

/-- An all-tens `2 × 2` matrix. -/
def ex10 : Mat 1 1 ℚ := ![![10, 10], ![10, 10]]

/-- A constant-column matrix `[[5],[5]]`. -/
def exConst : Mat 1 0 ℚ := ![![5], ![5]]

/-- A `2 × 2` matrix with non-constant columns. -/
def ex2 : Mat 1 1 ℚ := ![![1, 2], ![3, 4]]

/-- A `1 × 1` matrix. -/
def ex42 : Mat 0 0 ℚ := ![![42]]

/-! ### IEEE special-value refinement of the elementwise arithmetic

The exact ℚ/ℝ embedding above identifies division by zero with Lean's
convention `x / 0 = 0`, which cannot express the floating-point behavior of
the edge cases (`dataStd[j] = 0`, constant min-max column). The following
value type enriches the entries with the IEEE-754 special values: finite
numbers stay exact rationals (the relevant numerators and denominators in
the edge cases are exactly 0, so no rounding model is needed; overflow and
the sign of zero are not modelled — the library's reductions produce an
unsigned `+0`). -/

/-- A floating-point value: an exact finite rational, `+Infinity`,
`-Infinity`, or `NaN`. -/
inductive FVal : Type where
  | fin : ℚ → FVal
  | inf : FVal
  | ninf : FVal
  | nan : FVal

/-- IEEE-754 subtraction: `NaN` is absorbing, opposite infinities
subtract to the infinite operand's sign, `Infinity - Infinity = NaN`,
finite operands subtract exactly. -/
def FVal.sub : FVal → FVal → FVal
  | nan, _ => nan
  | _, nan => nan
  | inf, inf => nan
  | inf, _ => inf
  | ninf, ninf => nan
  | ninf, _ => ninf
  | fin _, inf => ninf
  | fin _, ninf => inf
  | fin a, fin b => fin (a - b)

/-- IEEE-754 division: `NaN` is absorbing, `Infinity / Infinity = NaN`,
finite over infinite is 0, infinite over finite keeps the sign, and for
finite operands `x / 0` is `+Infinity` for `x > 0`, `-Infinity` for
`x < 0`, and `NaN` for `0 / 0` (zero unsigned). -/
def FVal.div : FVal → FVal → FVal
  | nan, _ => nan
  | _, nan => nan
  | inf, inf => nan
  | inf, ninf => nan
  | ninf, inf => nan
  | ninf, ninf => nan
  | inf, fin b => if 0 ≤ b then inf else ninf
  | ninf, fin b => if 0 ≤ b then ninf else inf
  | fin _, inf => fin 0
  | fin _, ninf => fin 0
  | fin a, fin b =>
    if b = 0 then
      if 0 < a then inf else if a < 0 then ninf else nan
    else fin (a / b)

namespace FP

variable {m n : ℕ}

/-- Entries of an exact matrix viewed as finite floating-point values. -/
def finMat (A : Mat m n ℚ) : Mat m n FVal := fun i j => .fin (A i j)

/-- `t.sub(v)` with IEEE value semantics (broadcast across rows). -/
def subRows (A : Mat m n FVal) (v : Fin (n + 1) → FVal) : Mat m n FVal :=
  fun i j => (A i j).sub (v j)

/-- `t.div(v)` with IEEE value semantics (broadcast across rows). -/
def divRows (A : Mat m n FVal) (v : Fin (n + 1) → FVal) : Mat m n FVal :=
  fun i j => (A i j).div (v j)

/-- `u.sub(v)` on 1-d tensors with IEEE value semantics. -/
def subVec (u v : Fin (n + 1) → FVal) : Fin (n + 1) → FVal :=
  fun j => (u j).sub (v j)

/-- `normalizeTensor` (`data.sub(dataMean).div(dataStd)`) with IEEE value
semantics, for finite data and caller-supplied finite statistics: this is
where a zero `dataStd[j]` divides. -/
def normalizeTensor (data : Mat m n ℚ) (dataMean dataStd : Fin (n + 1) → ℚ) :
    Mat m n FVal :=
  divRows (subRows (finMat data) (fun j => .fin (dataMean j)))
    (fun j => .fin (dataStd j))

/-- `normalizeTensorWithMinMax` (`data.sub(min).div(max.sub(min))`) with
IEEE value semantics: the `min(0)`/`max(0)` reductions of finite entries
are exact and finite, the broadcast `sub` and `div` follow IEEE
arithmetic. -/
def normalizeTensorWithMinMax (data : Mat m n ℚ) : Mat m n FVal :=
  let mn := TF.minCols data
  let mx := TF.maxCols data
  divRows (subRows (finMat data) (fun j => .fin (mn j)))
    (subVec (fun j => .fin (mx j)) (fun j => .fin (mn j)))

end FP

/-! ### Helper lemmas -/

/-- The result object of `determineMeanAndStddev` has no property named
`mean`. -/
lemma getProp_mean_eq_none {n : ℕ} (r : MeanStd n) : r.getProp "mean" = none := by
  rw [MeanStd.getProp, if_neg (by decide), if_neg (by decide)]

/-- `normalizeTensorWithZScore` always hits the missing-property path:
destructuring `{ mean, std }` from `{ dataMean, dataStd }` binds `undefined`,
and the tensor ops throw (modelled as `none`). -/
lemma zScore_always_none {m n : ℕ} (data : Mat m n ℚ) :
    normalizeTensorWithZScore data = none := by
  rw [normalizeTensorWithZScore]
  rw [getProp_mean_eq_none]

/-- A value that is attained by a column and bounds it from below is the
column minimum. -/
lemma minCols_eq_of {m n : ℕ} (A : Mat m n ℚ) (j : Fin (n + 1)) (c : ℚ)
    (hmem : ∃ i, A i j = c) (hle : ∀ i, c ≤ A i j) : TF.minCols A j = c := by
  obtain ⟨i0, hi0⟩ := hmem
  refine le_antisymm ?_ (Finset.le_inf' _ _ fun i _ => hle i)
  have h := Finset.inf'_le (fun i => A i j) (Finset.mem_univ i0)
  rw [hi0] at h
  exact h

/-- A value that is attained by a column and bounds it from above is the
column maximum. -/
lemma maxCols_eq_of {m n : ℕ} (A : Mat m n ℚ) (j : Fin (n + 1)) (c : ℚ)
    (hmem : ∃ i, A i j = c) (hle : ∀ i, A i j ≤ c) : TF.maxCols A j = c := by
  obtain ⟨i0, hi0⟩ := hmem
  refine le_antisymm (Finset.sup'_le _ _ fun i _ => hle i) ?_
  have h := Finset.le_sup' (fun i => A i j) (Finset.mem_univ i0)
  rw [hi0] at h
  exact h

/-- The column of `[[1],[3],[5]]` has minimum 1. -/
lemma minCols_ex135 : TF.minCols ex135 0 = 1 := by
  apply minCols_eq_of
  · exact ⟨0, by norm_num [ex135]⟩
  · intro i; fin_cases i <;> norm_num [ex135]

/-- The column of `[[1],[3],[5]]` has maximum 5. -/
lemma maxCols_ex135 : TF.maxCols ex135 0 = 5 := by
  apply maxCols_eq_of
  · exact ⟨2, by norm_num [ex135]⟩
  · intro i; fin_cases i <;> norm_num [ex135]

/-- The column of `[[1],[2],[3],[4],[5]]` as a list. -/
lemma colList_ex5 : TF.colList ex5 0 = [1, 2, 3, 4, 5] := by
  simp [TF.colList, List.ofFn_succ, ex5]

/-- Median of the column `[1,2,3,4,5]` is 3. -/
lemma medianCols_ex5 : TF.medianCols ex5 0 = 3 := by
  rw [TF.medianCols, colList_ex5, TF.medianList]
  rw [List.mergeSort_eq_self (by norm_num [List.sorted_cons])]
  norm_num

/-- First quartile of the column `[1,2,3,4,5]` is 2. -/
lemma q1_ex5 : TF.quartileCols ex5 0 0 = 2 := by
  rw [TF.quartileCols, colList_ex5, TF.quartilesList]
  rw [List.mergeSort_eq_self (by norm_num [List.sorted_cons])]
  simp only [Matrix.cons_val_zero, List.length_cons, List.length_nil]
  norm_num [List.take]
  rw [TF.medianList]
  rw [List.mergeSort_eq_self (by norm_num [List.sorted_cons])]
  norm_num

/-- Third quartile of the column `[1,2,3,4,5]` is 4. -/
lemma q3_ex5 : TF.quartileCols ex5 2 0 = 4 := by
  rw [TF.quartileCols, colList_ex5, TF.quartilesList]
  rw [List.mergeSort_eq_self (by norm_num [List.sorted_cons])]
  simp only [Matrix.cons_val_two, Matrix.tail_cons, Matrix.head_cons,
    List.length_cons, List.length_nil]
  norm_num [List.drop]
  rw [TF.medianList]
  rw [List.mergeSort_eq_self (by norm_num [List.sorted_cons])]
  norm_num

/-! ### Claim theorems -/

/-- C1: the spec claims `normalizeTensorWithZScore(matrix)` equals the
composition of `determineMeanAndStddev` and `normalizeTensor` with the
matrix's own statistics. It does not: the wrapper destructures the
properties `mean` and `std` from an object whose only properties are
`dataMean` and `dataStd`, so both bind `undefined` and the tensor library
throws; for every matrix the wrapper errors (`none`) instead of returning
the composed z-score matrix. -/
theorem C1_zscore_wrapper_never_computes_composition :
    ∀ (m n : ℕ) (data : Mat m n ℚ), normalizeTensorWithZScore data = none :=
  fun _ _ data => zScore_always_none data

/-- C6: `normalizeTensor(data, dataMean, dataStd)` produces
`(data[i,j] - dataMean[j]) / dataStd[j]`, the statistics being taken from
the caller-supplied arguments (arbitrary vectors, not recomputed from the
matrix). -/
theorem C6_normalizeTensor_uses_supplied_stats :
    ∀ (m n : ℕ) (data : Mat m n ℚ) (dataMean dataStd : Fin (n + 1) → ℚ)
      (i : Fin (m + 1)) (j : Fin (n + 1)),
      normalizeTensor data dataMean dataStd i j
        = (data i j - dataMean j) / dataStd j :=
  fun _ _ _ _ _ _ _ => rfl

/-- C7: the spec claims every column of `normalizeTensorWithZScore`'s output
has mean 0 and standard deviation 1 (for non-constant columns). The function
never produces an output: on the matrix `[[1,2],[3,4]]` (no constant column)
it throws (`none`) because of the `{ mean, std }` destructuring mismatch. -/
theorem C7_zscore_wrapper_throws_on_ex2 :
    normalizeTensorWithZScore ex2 = none :=
  zScore_always_none ex2

/-- C10: the spec claims all five transforms return a matrix of the input's
shape. `normalizeTensorWithZScore` does not: on the `1 × 1` matrix `[[42]]`
it throws (`none`) instead of returning a `1 × 1` matrix, because of the
`{ mean, std }` destructuring mismatch. -/
theorem C10_zscore_wrapper_breaks_shape_contract :
    normalizeTensorWithZScore ex42 = none :=
  zScore_always_none ex42

/-- C3: `normalizeTensorWithMinMax` rescales each entry to
`(data[i,j] - min[j]) / (max[j] - min[j])` with the column minimum and
maximum, and maps the single column `[1,3,5]` to `[0, 1/2, 1]`. -/
theorem C3_minmax_formula_and_example :
    (∀ (m n : ℕ) (data : Mat m n ℚ) (i : Fin (m + 1)) (j : Fin (n + 1)),
        normalizeTensorWithMinMax data i j
          = (data i j - TF.minCols data j)
            / (TF.maxCols data j - TF.minCols data j))
    ∧ (normalizeTensorWithMinMax ex135 0 0 = 0
        ∧ normalizeTensorWithMinMax ex135 1 0 = 1 / 2
        ∧ normalizeTensorWithMinMax ex135 2 0 = 1) := by
  constructor
  · intro m n data i j; rfl
  · refine ⟨?_, ?_, ?_⟩ <;>
    · show (ex135 _ 0 - TF.minCols ex135 0)
          / (TF.maxCols ex135 0 - TF.minCols ex135 0) = _
      rw [minCols_ex135, maxCols_ex135]
      norm_num [ex135]

/-- C5: `normalizeTensorWithRobustScaling` rescales each entry to
`(data[i,j] - median[j]) / (Q3[j] - Q1[j])`, the quartiles taken by a
standard (inclusive median-of-halves) convention; on the single column
`[1,2,3,4,5]` the median is 3, Q1 is 2, Q3 is 4, and the output column is
`[-1, -1/2, 0, 1/2, 1]`. -/
theorem C5_robust_scaling_formula_and_example :
    (∀ (m n : ℕ) (data : Mat m n ℚ) (i : Fin (m + 1)) (j : Fin (n + 1)),
        normalizeTensorWithRobustScaling data i j
          = (data i j - TF.medianCols data j)
            / (TF.quartileCols data 2 j - TF.quartileCols data 0 j))
    ∧ TF.medianCols ex5 0 = 3
    ∧ TF.quartileCols ex5 0 0 = 2
    ∧ TF.quartileCols ex5 2 0 = 4
    ∧ (normalizeTensorWithRobustScaling ex5 0 0 = -1
        ∧ normalizeTensorWithRobustScaling ex5 1 0 = -(1 / 2)
        ∧ normalizeTensorWithRobustScaling ex5 2 0 = 0
        ∧ normalizeTensorWithRobustScaling ex5 3 0 = 1 / 2
        ∧ normalizeTensorWithRobustScaling ex5 4 0 = 1) := by
  refine ⟨fun m n data i j => rfl, medianCols_ex5, q1_ex5, q3_ex5, ?_⟩
  refine ⟨?_, ?_, ?_, ?_, ?_⟩ <;>
  · show (ex5 _ 0 - TF.medianCols ex5 0)
        / (TF.quartileCols ex5 2 0 - TF.quartileCols ex5 0 0) = _
    rw [medianCols_ex5, q1_ex5, q3_ex5]
    norm_num [ex5]

/-- C2: `determineMeanAndStddev` returns per-column population statistics:
`dataMean[j]` is the column average and `dataStd[j]` is the square root of
the average squared deviation from that mean (population, not sample
standard deviation); a constant column yields `dataStd[j] = 0` rather than
an error; and on `[[1,2],[3,4],[5,6]]` the column means are `[3,4]` and the
column standard deviations are `[sqrt(8/3), sqrt(8/3)]`. -/
theorem C2_determineMeanAndStddev_population_stats :
    (∀ (m n : ℕ) (data : Mat m n ℚ) (j : Fin (n + 1)),
        (determineMeanAndStddev data).dataMean j = (∑ i, data i j) / ((m : ℚ) + 1)
        ∧ (determineMeanAndStddev data).dataStd j
            = Real.sqrt ((∑ i, ((data i j : ℝ)
                - ((determineMeanAndStddev data).dataMean j : ℝ)) ^ 2) / ((m : ℝ) + 1))
        ∧ ∀ c : ℚ, (∀ i, data i j = c) → (determineMeanAndStddev data).dataStd j = 0)
    ∧ ((determineMeanAndStddev ex3).dataMean 0 = 3
        ∧ (determineMeanAndStddev ex3).dataMean 1 = 4)
    ∧ ((determineMeanAndStddev ex3).dataStd 0 = Real.sqrt (8 / 3)
        ∧ (determineMeanAndStddev ex3).dataStd 1 = Real.sqrt (8 / 3)) := by
  refine ⟨?_, ⟨?_, ?_⟩, ⟨?_, ?_⟩⟩
  · intro m n data j
    have hne : ((m + 1 : ℕ) : ℚ) ≠ 0 := Nat.cast_ne_zero.2 (Nat.succ_ne_zero m)
    refine ⟨?_, ?_, ?_⟩
    · show (∑ i, data i j) / ((m + 1 : ℕ) : ℚ) = _
      push_cast
      ring
    · show Real.sqrt (((∑ i, (data i j - (determineMeanAndStddev data).dataMean j)
            * (data i j - (determineMeanAndStddev data).dataMean j))
              / ((m + 1 : ℕ) : ℚ) : ℚ) : ℝ) = _
      congr 1
      push_cast
      simp only [pow_two]
    · intro c h
      have hmu : TF.meanCols data j = c := by
        rw [TF.meanCols]
        rw [Finset.sum_congr rfl (fun i _ => h i)]
        rw [Finset.sum_const, Finset.card_univ, Fintype.card_fin, nsmul_eq_mul]
        exact mul_div_cancel_left₀ c hne
      show Real.sqrt (((∑ i, (data i j - TF.meanCols data j)
          * (data i j - TF.meanCols data j)) / ((m + 1 : ℕ) : ℚ) : ℚ) : ℝ) = 0
      have hz : ∀ i : Fin (m + 1),
          (data i j - TF.meanCols data j) * (data i j - TF.meanCols data j) = 0 := by
        intro i
        rw [h i, hmu]
        ring
      rw [Finset.sum_congr rfl (fun i _ => hz i)]
      simp
  · show (∑ i, ex3 i 0) / ((3 : ℕ) : ℚ) = 3
    rw [Fin.sum_univ_three]
    norm_num [ex3]
  · show (∑ i, ex3 i 1) / ((3 : ℕ) : ℚ) = 4
    rw [Fin.sum_univ_three]
    norm_num [ex3]
  · show Real.sqrt ((TF.meanCols (TF.squareT (TF.subRows ex3 (TF.meanCols ex3))) 0 : ℚ) : ℝ)
        = Real.sqrt (8 / 3)
    have hv : TF.meanCols (TF.squareT (TF.subRows ex3 (TF.meanCols ex3))) 0 = 8 / 3 := by
      simp [TF.meanCols, TF.squareT, TF.subRows, Fin.sum_univ_three, ex3]
      norm_num
    rw [hv]
    congr 1
    push_cast
    norm_num
  · show Real.sqrt ((TF.meanCols (TF.squareT (TF.subRows ex3 (TF.meanCols ex3))) 1 : ℚ) : ℝ)
        = Real.sqrt (8 / 3)
    have hv : TF.meanCols (TF.squareT (TF.subRows ex3 (TF.meanCols ex3))) 1 = 8 / 3 := by
      simp [TF.meanCols, TF.squareT, TF.subRows, Fin.sum_univ_three, ex3]
      norm_num
    rw [hv]
    congr 1
    push_cast
    norm_num

/-- Witness for C2: the constant-column clause applied to the concrete
matrix `[[5],[5]]` gives standard deviation 0. -/
theorem C2_constant_column_witness :
    (determineMeanAndStddev exConst).dataStd 0 = 0 :=
  ((C2_determineMeanAndStddev_population_stats.1 1 0 exConst 0).2.2) 5
    (by intro i; fin_cases i <;> norm_num [exConst])

/-- C4: `normalizeTensorWithLogScaling` computes the base-10 logarithm of
each (positive) entry — the source divides the elementwise natural log by
the library's `log(10)` — and maps an all-tens matrix to an all-ones
matrix. -/
theorem C4_log_scaling_is_log10 :
    ∀ (m n : ℕ) (data : Mat m n ℚ), (∀ i j, 0 < data i j) →
      (∀ i j, normalizeTensorWithLogScaling data i j = Real.logb 10 (data i j))
      ∧ ((∀ i j, data i j = 10) →
          ∀ i j, normalizeTensorWithLogScaling data i j = 1) := by
  intro m n data hpos
  have hform : ∀ i j, normalizeTensorWithLogScaling data i j = Real.logb 10 (data i j) := by
    intro i j
    show Real.log ((data i j : ℝ)) / Real.log 10 = _
    rw [Real.log_div_log]
  refine ⟨hform, ?_⟩
  intro h10 i j
  rw [hform i j, h10 i j]
  rw [show ((10 : ℚ) : ℝ) = 10 by norm_num]
  exact Real.logb_self_eq_one (by norm_num)

/-- Witness for C4: on the all-tens matrix `[[10,10],[10,10]]` the
log-scaled entries are 1. -/
theorem C4_all_tens_witness :
    normalizeTensorWithLogScaling ex10 0 0 = 1
    ∧ normalizeTensorWithLogScaling ex10 1 1 = 1 :=
  have h := C4_log_scaling_is_log10 1 1 ex10
    (by intro i j; fin_cases i <;> fin_cases j <;> norm_num [ex10])
  have h10 : ∀ i j, ex10 i j = 10 := by
    intro i j; fin_cases i <;> fin_cases j <;> norm_num [ex10]
  ⟨h.2 h10 0 0, h.2 h10 1 1⟩

/-- C8: on a column whose entries are not all equal, `normalizeTensorWithMinMax`
produces a column with minimum exactly 0, maximum exactly 1, and every
entry in `[0, 1]`. -/
theorem C8_minmax_nonconstant_column_range :
    ∀ (m n : ℕ) (data : Mat m n ℚ) (j : Fin (n + 1)),
      TF.minCols data j < TF.maxCols data j →
      TF.minCols (normalizeTensorWithMinMax data) j = 0
      ∧ TF.maxCols (normalizeTensorWithMinMax data) j = 1
      ∧ ∀ i, 0 ≤ normalizeTensorWithMinMax data i j
             ∧ normalizeTensorWithMinMax data i j ≤ 1 := by
  intro m n data j h
  have hd : 0 < TF.maxCols data j - TF.minCols data j := sub_pos.2 h
  have hne : TF.maxCols data j - TF.minCols data j ≠ 0 := ne_of_gt hd
  have hent : ∀ i, normalizeTensorWithMinMax data i j
      = (data i j - TF.minCols data j) / (TF.maxCols data j - TF.minCols data j) :=
    fun i => rfl
  have hlo : ∀ i, TF.minCols data j ≤ data i j :=
    fun i => Finset.inf'_le (fun i => data i j) (Finset.mem_univ i)
  have hhi : ∀ i, data i j ≤ TF.maxCols data j :=
    fun i => Finset.le_sup' (fun i => data i j) (Finset.mem_univ i)
  have hb : ∀ i, 0 ≤ normalizeTensorWithMinMax data i j
      ∧ normalizeTensorWithMinMax data i j ≤ 1 := by
    intro i
    rw [hent i]
    constructor
    · exact div_nonneg (sub_nonneg.2 (hlo i)) hd.le
    · rw [div_le_one hd]
      exact sub_le_sub_right (hhi i) _
  refine ⟨?_, ?_, hb⟩
  · obtain ⟨i0, -, hi0⟩ :=
      Finset.exists_mem_eq_inf' (Finset.univ_nonempty) (fun i : Fin (m + 1) => data i j)
    have hi0' : TF.minCols data j = data i0 j := hi0
    apply le_antisymm
    · have h1 : TF.minCols (normalizeTensorWithMinMax data) j
          ≤ normalizeTensorWithMinMax data i0 j :=
        Finset.inf'_le (fun i => normalizeTensorWithMinMax data i j) (Finset.mem_univ i0)
      have h2 : normalizeTensorWithMinMax data i0 j = 0 := by
        rw [hent i0, ← hi0', sub_self, zero_div]
      rw [h2] at h1
      exact h1
    · exact Finset.le_inf' _ _ fun i _ => (hb i).1
  · obtain ⟨i1, -, hi1⟩ :=
      Finset.exists_mem_eq_sup' (Finset.univ_nonempty) (fun i : Fin (m + 1) => data i j)
    have hi1' : TF.maxCols data j = data i1 j := hi1
    apply le_antisymm
    · exact Finset.sup'_le _ _ fun i _ => (hb i).2
    · have h2 : normalizeTensorWithMinMax data i1 j = 1 := by
        rw [hent i1, ← hi1']
        exact div_self hne
      have h1 : normalizeTensorWithMinMax data i1 j
          ≤ TF.maxCols (normalizeTensorWithMinMax data) j :=
        Finset.le_sup' (fun i => normalizeTensorWithMinMax data i j) (Finset.mem_univ i1)
      rw [h2] at h1
      exact h1

/-- Witness for C8: the non-constant column `[1,3,5]` is min-max normalized
to a column with minimum 0 and maximum 1. -/
theorem C8_ex135_witness :
    TF.minCols (normalizeTensorWithMinMax ex135) 0 = 0
    ∧ TF.maxCols (normalizeTensorWithMinMax ex135) 0 = 1 :=
  have h : TF.minCols ex135 0 < TF.maxCols ex135 0 := by
    rw [minCols_ex135, maxCols_ex135]; norm_num
  ⟨(C8_minmax_nonconstant_column_range 2 0 ex135 0 h).1,
   (C8_minmax_nonconstant_column_range 2 0 ex135 0 h).2.1⟩

/-- C9: the numeric edge cases are value-level, not thrown errors. With a
zero `dataStd[j]`, `normalizeTensor` fills column `j` with IEEE special
values (`+Infinity` above the mean, `-Infinity` below it, `NaN` at it — in
particular always a NaN/Infinity value); on a constant column,
`normalizeTensorWithMinMax` computes `0 / 0` and fills the column with
`NaN`. Both functions remain total on these inputs (they return a matrix
of values; nothing is thrown). -/
theorem C9_edge_cases_propagate_ieee_values :
    (∀ (m n : ℕ) (data : Mat m n ℚ) (dataMean dataStd : Fin (n + 1) → ℚ)
        (j : Fin (n + 1)), dataStd j = 0 →
        ∀ i, FP.normalizeTensor data dataMean dataStd i j
              = (if dataMean j < data i j then FVal.inf
                 else if data i j < dataMean j then FVal.ninf else FVal.nan)
            ∧ (FP.normalizeTensor data dataMean dataStd i j = FVal.inf
               ∨ FP.normalizeTensor data dataMean dataStd i j = FVal.ninf
               ∨ FP.normalizeTensor data dataMean dataStd i j = FVal.nan))
    ∧ (∀ (m n : ℕ) (data : Mat m n ℚ) (j : Fin (n + 1)) (c : ℚ),
        (∀ i, data i j = c) →
        ∀ i, FP.normalizeTensorWithMinMax data i j = FVal.nan) := by
  constructor
  · intro m n data dataMean dataStd j hstd i
    have hchar : FP.normalizeTensor data dataMean dataStd i j
        = (if dataMean j < data i j then FVal.inf
           else if data i j < dataMean j then FVal.ninf else FVal.nan) := by
      have he : FP.normalizeTensor data dataMean dataStd i j
          = FVal.div (FVal.fin (data i j - dataMean j)) (FVal.fin 0) := by
        show FVal.div (FVal.sub (FVal.fin (data i j)) (FVal.fin (dataMean j)))
            (FVal.fin (dataStd j)) = _
        rw [hstd]
        rfl
      rw [he]
      show (if (0 : ℚ) = 0 then
              if 0 < data i j - dataMean j then FVal.inf
              else if data i j - dataMean j < 0 then FVal.ninf else FVal.nan
            else FVal.fin ((data i j - dataMean j) / 0)) = _
      rw [if_pos rfl]
      by_cases h1 : dataMean j < data i j
      · rw [if_pos (sub_pos.2 h1), if_pos h1]
      · rw [if_neg (fun hc => h1 (sub_pos.1 hc)), if_neg h1]
        by_cases h2 : data i j < dataMean j
        · rw [if_pos (sub_neg.2 h2), if_pos h2]
        · rw [if_neg (fun hc => h2 (sub_neg.1 hc)), if_neg h2]
    refine ⟨hchar, ?_⟩
    rw [hchar]
    by_cases h1 : dataMean j < data i j
    · rw [if_pos h1]; exact Or.inl rfl
    · rw [if_neg h1]
      by_cases h2 : data i j < dataMean j
      · rw [if_pos h2]; exact Or.inr (Or.inl rfl)
      · rw [if_neg h2]; exact Or.inr (Or.inr rfl)
  · intro m n data j c h i
    have hmn : TF.minCols data j = c := minCols_eq_of data j c ⟨0, h 0⟩ (fun i => (h i).ge)
    have hmx : TF.maxCols data j = c := maxCols_eq_of data j c ⟨0, h 0⟩ (fun i => (h i).le)
    show FVal.div (FVal.sub (FVal.fin (data i j)) (FVal.fin (TF.minCols data j)))
        (FVal.sub (FVal.fin (TF.maxCols data j)) (FVal.fin (TF.minCols data j))) = FVal.nan
    rw [hmn, hmx, h i]
    show FVal.div (FVal.fin (c - c)) (FVal.fin (c - c)) = FVal.nan
    rw [sub_self]
    show (if (0 : ℚ) = 0 then
            if 0 < (0 : ℚ) then FVal.inf
            else if (0 : ℚ) < 0 then FVal.ninf else FVal.nan
          else FVal.fin ((0 : ℚ) / 0)) = FVal.nan
    rw [if_pos rfl, if_neg (lt_irrefl 0), if_neg (lt_irrefl 0)]

/-- Witness for C9: dividing the column `[1,3]` by the zero standard
deviation vector puts `+Infinity` at the above-mean entry, and min-max
normalizing the constant column `[5,5]` puts `NaN` in every entry. -/
theorem C9_edge_cases_witness :
    FP.normalizeTensor (![![1], ![3]] : Mat 1 0 ℚ) ![2] ![0] 1 0 = FVal.inf
    ∧ FP.normalizeTensorWithMinMax exConst 0 0 = FVal.nan := by
  constructor
  · have h := (C9_edge_cases_propagate_ieee_values.1 1 0
      (![![1], ![3]] : Mat 1 0 ℚ) ![2] ![0] 0 rfl 1).1
    rw [h]
    show (if (2 : ℚ) < 3 then FVal.inf else if (3 : ℚ) < 2 then FVal.ninf else FVal.nan)
        = FVal.inf
    rw [if_pos (by norm_num)]
  · exact C9_edge_cases_propagate_ieee_values.2 1 0 exConst 0 5
      (fun i => by fin_cases i <;> norm_num [exConst]) 0

end Normalization
